import Mathlib

/-!
Shallow embedding of `src/snmp.c` (collectd SNMP plugin): the configuration
data model (data definitions, host definitions, collect bindings), value
coercion, and the scalar poll/match/dispatch path, together with theorems
settling the specification's claims about them.

External collaborators (the net-snmp transport, the oconfig parser having
already produced a typed tree, the metric-type registry `plugin_get_ds`, and
the metrics sink `plugin_dispatch_values`) are modelled as explicit inputs:
an environment of oracle functions for the transport and the type registry,
and an event trace standing for log output and dispatched samples.
-/

namespace CollectdSnmp

/-- Model of `oid_t` (snmp.c lines 32-37): an object identifier, an ordered sequence of
non-negative integers. `snmp_oid_compare(a, alen, b, blen) == 0` is exact
sequence equality, i.e. list equality in this model. -/
abbrev Oid := List Nat

/-- Constant `MAX_OID_LEN` from net-snmp: bound on the number of sub-identifiers. -/
def MAX_OID_LEN : Nat := 128

/-- Constant `DATA_MAX_NAME_LEN` from collectd's plugin.h: size of the fixed string
buffers (`instance.string`, `vl.host`, `vl.type_instance`); `strncpy` into
such a buffer keeps at most `DATA_MAX_NAME_LEN - 1 = 63` characters. -/
def DATA_MAX_NAME_LEN : Nat := 64

/-- ASN type tag `ASN_INTEGER` (0x02) from net-snmp. -/
def ASN_INTEGER : Nat := 0x02

/-- ASN type tag `ASN_COUNTER` (0x41) from net-snmp. -/
def ASN_COUNTER : Nat := 0x41

/-- ASN type tag `ASN_GAUGE` (0x42) from net-snmp. -/
def ASN_GAUGE : Nat := 0x42

/-- ASN type tag `ASN_COUNTER64` (0x46) from net-snmp. -/
def ASN_COUNTER64 : Nat := 0x46

/-- ASN type tag `ASN_UINTEGER` (0x47) from net-snmp. -/
def ASN_UINTEGER : Nat := 0x47

/-- Constant `DS_TYPE_COUNTER` from collectd's plugin.h: slot kind "counter". -/
def DS_TYPE_COUNTER : Int := 0

/-- Constant `DS_TYPE_GAUGE` from collectd's plugin.h: slot kind "gauge". -/
def DS_TYPE_GAUGE : Int := 1

/-- Modulus of the C type `uint64_t`. -/
def UINT64_MOD : Nat := 2 ^ 64

/-- One returned variable (`struct variable_list`): its identifier
(`vb->name`/`name_length`), its ASN type tag (`vb->type`), and the union
payload: `*vl->val.integer` (a C `long`, hence `Int`) read by the
integer-like branch, and `vl->val.counter64->high`/`low` read by the
64-bit-counter branch. -/
structure SnmpVariable where
  name : Oid
  asnType : Nat
  valInteger : Int
  valC64High : Nat
  valC64Low : Nat
deriving DecidableEq, Repr

/-- Model of `value_t`: either a 64-bit counter or a gauge. The gauge (a C `double`)
is modelled as `Option Nat`: `none` is the NaN ("no data") value and
`some n` the double holding the 64-bit integer `n` widened to floating
point. Only the numeric value and NaN-ness of the double matter to this
plugin, so the widening's rounding is not modelled. -/
inductive Value where
  | counter (c : Nat)
  | gauge (g : Option Nat)
deriving DecidableEq, Repr

/-- Model of `csnmp_value_list_to_value` (snmp.c lines 579-616). `temp` is a
`uint64_t`, so every store into it is reduced mod 2^64: the integer-like
branch converts the C `long` `*vl->val.integer` to `uint64_t`
(`Int.emod` by 2^64, then `toNat`); the `ASN_COUNTER64` branch computes
`temp = high; temp <<= 32; temp += low` step by step. An unrecognized ASN
type leaves `temp = 0` with `defined = 0`. The result `ret` is only
assigned in the `DS_TYPE_COUNTER` and `DS_TYPE_GAUGE` branches; `none`
models the function returning with `ret` still unassigned (an
indeterminate `value_t`). -/
def csnmp_value_list_to_value (vl : SnmpVariable) (type : Int) : Option Value :=
  let tempDefined : Nat × Bool :=
    if vl.asnType = ASN_INTEGER ∨ vl.asnType = ASN_UINTEGER ∨
       vl.asnType = ASN_COUNTER ∨ vl.asnType = ASN_GAUGE then
      ((vl.valInteger % (UINT64_MOD : Int)).toNat, true)
    else if vl.asnType = ASN_COUNTER64 then
      ((vl.valC64High * 2 ^ 32 % UINT64_MOD + vl.valC64Low) % UINT64_MOD, true)
    else
      (0, false)
  if type = DS_TYPE_COUNTER then
    some (Value.counter tempDefined.1)
  else if type = DS_TYPE_GAUGE then
    some (Value.gauge (if tempDefined.2 then some tempDefined.1 else none))
  else
    none

/-- The set of ASN wire types the coercion recognizes:
{integer, unsigned integer, 32-bit counter, gauge, 64-bit counter}. -/
def recognizedWireType (t : Nat) : Bool :=
  (t == ASN_INTEGER) || (t == ASN_UINTEGER) || (t == ASN_COUNTER) ||
  (t == ASN_GAUGE) || (t == ASN_COUNTER64)

/-- One slot of the `vl.values` array of `csnmp_read_value`: `some v` is a
determinate `value_t`; `none` models the indeterminate content written when
`csnmp_value_list_to_value` returns with `ret` unassigned (slot kind
neither counter nor gauge). -/
abbrev Slot := Option Value

/-- The slot-initialization loop of `csnmp_read_value` (snmp.c lines
658-664): every counter slot starts at counter 0, every other slot at
gauge NaN — the "absent" values. -/
def initSlots (ds : List Int) : List Slot :=
  ds.map fun t =>
    if t = DS_TYPE_COUNTER then some (Value.counter 0) else some (Value.gauge none)

/-- The inner matching loop of `csnmp_read_value` (snmp.c lines 700-703)
for one returned variable: each slot whose configured OID exactly equals
the variable's identifier (`snmp_oid_compare(...) == 0`) is overwritten
with the coerced value; all other slots keep their content. The three
lists run in parallel: configured OIDs, slot kinds from the data set, and
the current slot array. -/
def fillVar : List Oid → List Int → SnmpVariable → List Slot → List Slot
  | o :: os, t :: ts, vb, s :: ss =>
      (if o = vb.name then csnmp_value_list_to_value vb t else s) ::
        fillVar os ts vb ss
  | _, _, _, ss => ss

/-- The outer matching loop of `csnmp_read_value` (snmp.c lines 693-704)
over the returned variables, in response order. -/
def applyVars (oids : List Oid) (ds : List Int) (vars : List SnmpVariable)
    (slots : List Slot) : List Slot :=
  vars.foldl (fun s vb => fillVar oids ds vb s) slots

/-- Model of `oconfig_value_t`: one typed configuration value. Numbers are doubles
in oconfig; the only numeric option (`Version`) reads the value through
`(int)`, so numbers are modelled as the integers they are read as. -/
inductive OValue where
  | str (s : String)
  | num (n : Int)
  | bool (b : Bool)
deriving DecidableEq, Repr

/-- The string payload of a configuration value, when it is a string
(`value.type == OCONFIG_TYPE_STRING`). -/
def strVal? : OValue → Option String
  | OValue.str s => some s
  | _ => none

/-- Model of `oconfig_item_t`: a key, its typed values, and its child items. -/
inductive OItem where
  | mk (key : String) (values : List OValue) (children : List OItem)

/-- The key of a configuration item. -/
def OItem.key : OItem → String
  | .mk k _ _ => k

/-- The values of a configuration item. -/
def OItem.values : OItem → List OValue
  | .mk _ v _ => v

/-- The child items of a configuration item. -/
def OItem.children : OItem → List OItem
  | .mk _ _ c => c

/-- Model of `strcasecmp(a, b) == 0`: case-insensitive string equality (`tolower`
per character). -/
def strCaseEq (a b : String) : Bool :=
  a.toList.map Char.toLower == b.toList.map Char.toLower

/-- Model of `strncpy` into a buffer of size `n + 1` with a forced trailing NUL:
keeps at most the first `n` characters. -/
def strTrunc (s : String) (n : Nat) : String :=
  String.mk (s.toList.take n)

/-- Split a character sequence at every '.' (helper of `parseOid`). -/
def splitOnDot : List Char → List (List Char)
  | [] => [[]]
  | c :: rest =>
    let r := splitOnDot rest
    if c = '.' then [] :: r
    else
      match r with
      | p :: ps => (c :: p) :: ps
      | [] => [[c]]

/-- Parse a non-empty all-digit character sequence as a decimal numeral
(helper of `parseOid`). -/
def parseDec (cs : List Char) : Option Nat :=
  if cs ≠ [] ∧ cs.all Char.isDigit then
    some (cs.foldl (fun n c => n * 10 + (c.toNat - 48)) 0)
  else
    none

/-- Modelled from the spec: `snmp_parse_oid` and `read_objid` live in the
external net-snmp library (out of scope per §1). Per §3 an OID is "an
ordered sequence of non-negative integers (bounded length)"; the textual
form is dot-separated decimal sub-identifiers. Parsing fails (the C
functions return NULL/0) when a component is not a decimal numeral, the
sequence is empty, or it exceeds `MAX_OID_LEN` components. -/
def parseOid (s : String) : Option Oid :=
  let parts := splitOnDot s.toList
  if (parts.all fun p => (parseDec p).isSome) ∧ parts.length ≤ MAX_OID_LEN then
    some (parts.filterMap parseDec)
  else
    none

/-- Parse a list of OID strings, failing at the first bad one (the loop of
`csnmp_config_add_data_values`, snmp.c lines 188-202). -/
def parseOidList : List String → Option (List Oid)
  | [] => some []
  | s :: rest =>
    match parseOid s, parseOidList rest with
    | some o, some os => some (o :: os)
    | _, _ => none

/-- Model of `instance_t` (snmp.c lines 39-44), the union modelled as a tagged
variant as the spec directs (§9): a literal string in scalar mode, an OID
in table mode. The zeroed union of a freshly allocated definition reads as
the empty string. -/
inductive InstanceSpec where
  | str (s : String)
  | oid (o : Oid)
deriving DecidableEq, Repr

/-- Read of `data->instance.string` performed by `csnmp_read_value`; only
scalar-mode definitions reach it, and their instance is the string
variant. (Reading the string member while the union holds an OID is an
untyped reinterpretation in C; it is modelled opaquely as "".) -/
def InstanceSpec.stringView : InstanceSpec → String
  | .str s => s
  | .oid _ => ""

/-- Model of `data_definition_t` while its declaration is being processed: `type`
and `values` are NULL-able (`Option`), exactly as the C pointers are. -/
structure DataBuild where
  name : String
  type : Option String
  is_table : Bool
  instSpec : InstanceSpec
  values : Option (List Oid)
deriving DecidableEq, Repr

/-- An accepted `data_definition_t` in the registry: the final checks of
`csnmp_config_add_data` guarantee `type` and `values` are non-NULL, so a
registry entry carries them directly; `values_len` is `values.length`. -/
structure DataDefinition where
  name : String
  type : String
  is_table : Bool
  instSpec : InstanceSpec
  values : List Oid
deriving DecidableEq, Repr

/-- Model of `csnmp_config_add_data_type` (snmp.c lines 103-119): exactly one string
argument, which (re)sets the metric-type reference. -/
def csnmp_config_add_data_type (dd : DataBuild) (ci : OItem) : Int × DataBuild :=
  match ci.values with
  | [OValue.str s] => (0, { dd with type := some s })
  | _ => (-1, dd)

/-- Model of `csnmp_config_add_data_table` (snmp.c lines 121-132): exactly one
boolean argument, which sets `is_table`. -/
def csnmp_config_add_data_table (dd : DataBuild) (ci : OItem) : Int × DataBuild :=
  match ci.values with
  | [OValue.bool b] => (0, { dd with is_table := b })
  | _ => (-1, dd)

/-- Model of `csnmp_config_add_data_instance` (snmp.c lines 134-162): exactly one
string argument; in table mode it must parse as an OID (`read_objid`),
in scalar mode it is copied (`strncpy`, truncating to
`DATA_MAX_NAME_LEN - 1` characters). -/
def csnmp_config_add_data_instance (dd : DataBuild) (ci : OItem) : Int × DataBuild :=
  match ci.values with
  | [OValue.str s] =>
    if dd.is_table then
      match parseOid s with
      | some o => (0, { dd with instSpec := InstanceSpec.oid o })
      | none => (-1, dd)
    else
      (0, { dd with instSpec := InstanceSpec.str (strTrunc s (DATA_MAX_NAME_LEN - 1)) })
  | _ => (-1, dd)

/-- Model of `csnmp_config_add_data_values` (snmp.c lines 164-205): at least one
argument, all strings; each must parse as an OID. On a parse failure the
values list is freed and reset to NULL; on success it replaces any
previous list. -/
def csnmp_config_add_data_values (dd : DataBuild) (ci : OItem) : Int × DataBuild :=
  if ci.values.length < 1 then (-1, dd)
  else if ci.values.any (fun v => (strVal? v).isNone) then (-1, dd)
  else
    match parseOidList (ci.values.filterMap strVal?) with
    | some os => (0, { dd with values := some os })
    | none => (-1, { dd with values := none })

/-- The option dispatch in the child loop of `csnmp_config_add_data`
(snmp.c lines 237-249): dispatch on the option key (case-insensitively);
unknown keys fail. -/
def csnmp_config_add_data_option (dd : DataBuild) (option : OItem) : Int × DataBuild :=
  if strCaseEq "Type" option.key then csnmp_config_add_data_type dd option
  else if strCaseEq "Table" option.key then csnmp_config_add_data_table dd option
  else if strCaseEq "Instance" option.key then csnmp_config_add_data_instance dd option
  else if strCaseEq "Values" option.key then csnmp_config_add_data_values dd option
  else (-1, dd)

/-- The child-option loop of `csnmp_config_add_data` (snmp.c lines
232-253): options are processed in order and the loop breaks at the first
failing one. -/
def csnmp_config_add_data_children : DataBuild → List OItem → Int × DataBuild
  | dd, [] => (0, dd)
  | dd, option :: rest =>
    if (csnmp_config_add_data_option dd option).1 ≠ 0 then
      csnmp_config_add_data_option dd option
    else
      csnmp_config_add_data_children (csnmp_config_add_data_option dd option).2 rest

/-- Model of `csnmp_config_add_data` (snmp.c lines 207-296): the `Data` declaration
needs exactly one string argument (the name); the fresh definition is
zeroed (`type = NULL`, `is_table = 0`, empty instance, `values = NULL`);
children are processed in order; afterwards `Type` and `Values` must have
been set. `none` is every `return (-1)` path: the definition is freed, not
registered. On success the accepted definition is returned (the C appends
it to `data_head`; `csnmp_config_step` does that in this model). -/
def csnmp_config_add_data (ci : OItem) : Option DataDefinition :=
  match ci.values with
  | [OValue.str ddname] =>
    let dd0 : DataBuild :=
      { name := ddname, type := none, is_table := false,
        instSpec := InstanceSpec.str "", values := none }
    let stDd := csnmp_config_add_data_children dd0 ci.children
    if stDd.1 ≠ 0 then none
    else
      match stDd.2.type, stDd.2.values with
      | some t, some vs =>
        some { name := stDd.2.name, type := t, is_table := stDd.2.is_table,
               instSpec := stDd.2.instSpec, values := vs }
      | _, _ => none
  | _ => none

/-- Model of `host_definition_t` while its declaration is being processed:
`address` and `community` are NULL-able pointers; `version` defaults
to 2. -/
structure HostBuild where
  name : String
  address : Option String
  community : Option String
  version : Int
deriving DecidableEq, Repr

/-- An accepted `host_definition_t` in the registry: `address` and
`community` are guaranteed non-NULL by the final checks of
`csnmp_config_add_host`; `data_list` is the collect set, initially
empty. -/
structure HostDefinition where
  name : String
  address : String
  community : String
  version : Int
  data_list : List DataDefinition
deriving DecidableEq, Repr

/-- Model of `csnmp_config_add_host_address` (snmp.c lines 298-320): exactly one
string argument. -/
def csnmp_config_add_host_address (hd : HostBuild) (ci : OItem) : Int × HostBuild :=
  match ci.values with
  | [OValue.str s] => (0, { hd with address := some s })
  | _ => (-1, hd)

/-- Model of `csnmp_config_add_host_community` (snmp.c lines 322-345): exactly one
string argument. -/
def csnmp_config_add_host_community (hd : HostBuild) (ci : OItem) : Int × HostBuild :=
  match ci.values with
  | [OValue.str s] => (0, { hd with community := some s })
  | _ => (-1, hd)

/-- Model of `csnmp_config_add_host_version` (snmp.c lines 347-373): exactly one
number argument, read as an int, restricted to {1, 2}. -/
def csnmp_config_add_host_version (hd : HostBuild) (ci : OItem) : Int × HostBuild :=
  match ci.values with
  | [OValue.num n] =>
    if n = 1 ∨ n = 2 then (0, { hd with version := n }) else (-1, hd)
  | _ => (-1, hd)

/-- The option dispatch in the child loop of `csnmp_config_add_host`
(snmp.c lines 408-418). -/
def csnmp_config_add_host_option (hd : HostBuild) (option : OItem) : Int × HostBuild :=
  if strCaseEq "Address" option.key then csnmp_config_add_host_address hd option
  else if strCaseEq "Community" option.key then csnmp_config_add_host_community hd option
  else if strCaseEq "Version" option.key then csnmp_config_add_host_version hd option
  else (-1, hd)

/-- The child-option loop of `csnmp_config_add_host` (snmp.c lines
403-422). -/
def csnmp_config_add_host_children : HostBuild → List OItem → Int × HostBuild
  | hd, [] => (0, hd)
  | hd, option :: rest =>
    if (csnmp_config_add_host_option hd option).1 ≠ 0 then
      csnmp_config_add_host_option hd option
    else
      csnmp_config_add_host_children (csnmp_config_add_host_option hd option).2 rest

/-- Model of `csnmp_config_add_host` (snmp.c lines 375-465): one string argument
(the name), version defaulting to 2, children processed in order, then
`Address` and `Community` must have been set; `none` is every `-1` path. -/
def csnmp_config_add_host (ci : OItem) : Option HostDefinition :=
  match ci.values with
  | [OValue.str hname] =>
    let hd0 : HostBuild :=
      { name := hname, address := none, community := none, version := 2 }
    let stHd := csnmp_config_add_host_children hd0 ci.children
    if stHd.1 ≠ 0 then none
    else
      match stHd.2.address, stHd.2.community with
      | some a, some c =>
        some { name := stHd.2.name, address := a, community := c,
               version := stHd.2.version, data_list := [] }
      | _, _ => none
  | _ => none

/-- The data-definition lookup of `csnmp_config_add_collect` (snmp.c lines
508-510): first registered definition whose name matches
case-insensitively. -/
def findDataDef (dataList : List DataDefinition) (n : String) : Option DataDefinition :=
  dataList.find? (fun d => strCaseEq n d.name)

/-- Append the resolved collect set to the first host whose name matches
case-insensitively (snmp.c lines 488-524); `none` when no host matches.
Every other host is untouched. -/
def collectAppend (hostName : String) (adds : List DataDefinition) :
    List HostDefinition → Option (List HostDefinition)
  | [] => none
  | h :: t =>
    if strCaseEq hostName h.name then
      some ({ h with data_list := h.data_list ++ adds } :: t)
    else
      match collectAppend hostName adds t with
      | some t' => some (h :: t')
      | none => none

/-- Model of `csnmp_config_add_collect` (snmp.c lines 467-527): at least two
arguments, all strings; the first names a host that must already be
registered (`-1` with the registry untouched otherwise); each remaining
name is resolved independently against the data registry — unresolved
names are warned and skipped, resolved ones are appended to the host's
collect set in the order given. -/
def csnmp_config_add_collect (hosts : List HostDefinition)
    (dataList : List DataDefinition) (ci : OItem) : Int × List HostDefinition :=
  if ci.values.length < 2 then (-1, hosts)
  else if ci.values.any (fun v => (strVal? v).isNone) then (-1, hosts)
  else
    let names := ci.values.filterMap strVal?
    let adds := names.tail.filterMap (findDataDef dataList)
    match collectAppend (names.headD "") adds hosts with
    | some hosts' => (0, hosts')
    | none => (-1, hosts)

/-- The two process-wide registries `data_head` and `host_head`
(snmp.c lines 74-75). -/
structure ConfigState where
  data_head : List DataDefinition
  host_head : List HostDefinition
deriving DecidableEq, Repr

/-- One iteration of `csnmp_config`'s child loop (snmp.c lines 535-548):
dispatch on the key, ignore the add functions' status (a failed
declaration never aborts its siblings), warn and ignore unknown keys. -/
def csnmp_config_step (st : ConfigState) (child : OItem) : ConfigState :=
  if strCaseEq "Data" child.key then
    match csnmp_config_add_data child with
    | some dd => { st with data_head := st.data_head ++ [dd] }
    | none => st
  else if strCaseEq "Host" child.key then
    match csnmp_config_add_host child with
    | some hd => { st with host_head := st.host_head ++ [hd] }
    | none => st
  else if strCaseEq "Collect" child.key then
    { st with host_head := (csnmp_config_add_collect st.host_head st.data_head child).2 }
  else
    st

/-- Model of `csnmp_config` (snmp.c lines 529-551), from empty registries. -/
def csnmp_config (ci : OItem) : ConfigState :=
  ci.children.foldl csnmp_config_step { data_head := [], host_head := [] }

/-- External collaborators of the poll engine, as oracle functions:
`getDs` is `plugin_get_ds` (the metric-type registry: the slot-kind list
of a type name, `none` when the data set is not defined); `sessOpen`
tells whether `snmp_open` succeeds for a host; `response` is
`snmp_synch_response` for the scalar GET request carrying the given OID
list (`none` = status ≠ STAT_SUCCESS, `some vars` = the returned variable
list); `now` is `time(NULL)`. -/
structure PollEnv where
  getDs : String → Option (List Int)
  sessOpen : HostDefinition → Bool
  response : HostDefinition → List Oid → Option (List SnmpVariable)
  now : Nat

/-- One dispatched `value_list_t` as handed to `plugin_dispatch_values`:
`vl.host` (`strncpy` into a `DATA_MAX_NAME_LEN` buffer, hence truncated to
63 characters), `vl.plugin = "snmp"`, `vl.type_instance` (the configured
instance string, same truncation), the dispatch type (first argument of
`plugin_dispatch_values`, the definition's metric type), `vl.time`, and
the slot array. -/
structure Sample where
  host : String
  plugin : String
  type_instance : String
  type : String
  time : Nat
  values : List Slot
deriving DecidableEq, Repr

/-- Observable behavior of one poll cycle: log lines that the claims
mention, session lifecycle, and dispatched samples. -/
inductive Event where
  | infoNoHosts
  | sessionOpenFailed (host : String)
  | sessionOpened (host : String)
  | sessionClosed (host : String)
  | dispatched (s : Sample)
deriving DecidableEq, Repr

/-- The samples among a trace's events. -/
def samplesOf (evs : List Event) : List Sample :=
  evs.filterMap fun e =>
    match e with
    | Event.dispatched s => some s
    | _ => none

/-- Model of `csnmp_read_table` (snmp.c lines 618-622): the table path is stubbed —
it returns success and collects nothing. -/
def csnmp_read_table (_env : PollEnv) (_host : HostDefinition)
    (_data : DataDefinition) : Int × List Event :=
  (0, [])

/-- Model of `csnmp_read_value` (snmp.c lines 624-712): look up the data set,
require its slot count to equal the definition's value count, send one GET
carrying all configured OIDs, initialize every slot to its absent value,
overwrite slots by exact OID match via value coercion, and dispatch one
sample. Every `return (-1)` path dispatches nothing. -/
def csnmp_read_value (env : PollEnv) (host : HostDefinition)
    (data : DataDefinition) : Int × List Event :=
  match env.getDs data.type with
  | none => (-1, [])
  | some ds =>
    if ds.length ≠ data.values.length then (-1, [])
    else
      match env.response host data.values with
      | none => (-1, [])
      | some vars =>
        let slots := applyVars data.values ds vars (initSlots ds)
        (0, [Event.dispatched
          { host := strTrunc host.name (DATA_MAX_NAME_LEN - 1),
            plugin := "snmp",
            type_instance := strTrunc data.instSpec.stringView (DATA_MAX_NAME_LEN - 1),
            type := data.type,
            time := env.now,
            values := slots }])

/-- Model of `csnmp_read_host` (snmp.c lines 714-741): open one session; on failure
log and return -1 having done nothing else; on success run every bound
definition (table or scalar path, each definition's status ignored) and
close the session unconditionally afterwards. -/
def csnmp_read_host (env : PollEnv) (host : HostDefinition) : Int × List Event :=
  if env.sessOpen host then
    let perDef := host.data_list.map fun data =>
      if data.is_table then csnmp_read_table env host data
      else csnmp_read_value env host data
    (0, Event.sessionOpened host.name ::
        ((perDef.map Prod.snd).flatten ++ [Event.sessionClosed host.name]))
  else
    (-1, [Event.sessionOpenFailed host.name])

/-- Model of `csnmp_read` (snmp.c lines 743-757): with an empty host registry, log
"No hosts configured." and return -1; otherwise poll every host in
registration order, ignoring each host's status, and return 0. -/
def csnmp_read (env : PollEnv) (hosts : List HostDefinition) : Int × List Event :=
  match hosts with
  | [] => (-1, [Event.infoNoHosts])
  | _ => (0, (hosts.map fun h => (csnmp_read_host env h).2).flatten)

/-- Fixture: an inert environment (every data set missing, every session
failing, every request failing). -/
def envTriv : PollEnv :=
  { getDs := fun _ => none
    sessOpen := fun _ => false
    response := fun _ _ => none
    now := 0 }

/-- Fixture: a configuration tree whose one data definition names the
metric type "foo" but lists a single OID value. -/
def cfgItemMismatch : OItem :=
  OItem.mk "snmp" []
    [OItem.mk "Data" [OValue.str "mismatch"]
      [OItem.mk "Type" [OValue.str "foo"] [],
       OItem.mk "Values" [OValue.str "1.3.6.1.1"] []]]

/-- Fixture: the data definition accepted from `cfgItemMismatch`. -/
def ddMismatch : DataDefinition :=
  { name := "mismatch", type := "foo", is_table := false,
    instSpec := InstanceSpec.str "", values := [[1, 3, 6, 1, 1]] }

/-- Fixture: an environment whose metric-type registry declares "foo" with
two gauge slots. -/
def envTwoGauge : PollEnv :=
  { getDs := fun t => if t = "foo" then some [DS_TYPE_GAUGE, DS_TYPE_GAUGE] else none
    sessOpen := fun _ => true
    response := fun _ _ => some []
    now := 0 }

/-- Fixture: a host bound to the mismatched definition. -/
def hostMismatch : HostDefinition :=
  { name := "h2", address := "192.0.2.2", community := "public", version := 2,
    data_list := [ddMismatch] }

/-- Fixture for the round-trip scenario: definition `d1`, metric type
"foo2" with two gauge slots, OIDs 1.3.6.1.1 and 1.3.6.1.2, instance
"eth0". -/
def dataD1 : DataDefinition :=
  { name := "d1", type := "foo2", is_table := false,
    instSpec := InstanceSpec.str "eth0",
    values := [[1, 3, 6, 1, 1], [1, 3, 6, 1, 2]] }

/-- Fixture: host `h1`, bound to `d1`. -/
def hostH1 : HostDefinition :=
  { name := "h1", address := "192.0.2.1", community := "public", version := 2,
    data_list := [dataD1] }

/-- Fixture: environment for the round-trip scenario — "foo2" has two
gauge slots, sessions open, and the response carries exactly one variable:
1.3.6.1.1 with integer value 42 (and nothing for 1.3.6.1.2). -/
def envScenario : PollEnv :=
  { getDs := fun t => if t = "foo2" then some [DS_TYPE_GAUGE, DS_TYPE_GAUGE] else none
    sessOpen := fun _ => true
    response := fun _ _ => some [⟨[1, 3, 6, 1, 1], ASN_INTEGER, 42, 0, 0⟩]
    now := 100 }

/-- Fixture: a host named "bad" with nothing to collect. -/
def hostBad : HostDefinition :=
  { name := "bad", address := "192.0.2.3", community := "public", version := 2,
    data_list := [] }

/-- Fixture: like `envScenario`, but the session for host "bad" fails to
open. -/
def envBadHost : PollEnv :=
  { getDs := fun t => if t = "foo2" then some [DS_TYPE_GAUGE, DS_TYPE_GAUGE] else none
    sessOpen := fun h => h.name != "bad"
    response := fun _ _ => some [⟨[1, 3, 6, 1, 1], ASN_INTEGER, 42, 0, 0⟩]
    now := 7 }

/-- Fixture: a `Data` declaration with a `Type` child but no `Values`
child. -/
def declNoValues : OItem :=
  OItem.mk "Data" [OValue.str "broken"]
    [OItem.mk "Type" [OValue.str "foo"] []]

/-- Fixture: a configuration tree holding the broken declaration followed
by a well-formed sibling. -/
def cfgSiblings : OItem :=
  OItem.mk "snmp" []
    [declNoValues,
     OItem.mk "Data" [OValue.str "good"]
       [OItem.mk "Type" [OValue.str "foo"] [],
        OItem.mk "Values" [OValue.str "1.2.3"] []]]

/-- Fixture: the data definition accepted from the well-formed sibling of
`cfgSiblings`. -/
def ddGood : DataDefinition :=
  { name := "good", type := "foo", is_table := false,
    instSpec := InstanceSpec.str "", values := [[1, 2, 3]] }

/-- Fixture: a registered data definition named "dx". -/
def dataDx : DataDefinition :=
  { name := "dx", type := "t", is_table := false,
    instSpec := InstanceSpec.str "", values := [[1]] }

/-- Fixture: host "alpha" with an empty collect set. -/
def hostAlpha : HostDefinition :=
  { name := "alpha", address := "192.0.2.4", community := "public", version := 2,
    data_list := [] }

/-- Fixture: host "beta" with an empty collect set. -/
def hostBeta : HostDefinition :=
  { name := "beta", address := "192.0.2.5", community := "public", version := 2,
    data_list := [] }

/-- C3: Value Coercion is a pure function (it is a Lean function of exactly
(wire value, wire type, slot kind), hence deterministic); with a counter
target the output is always a counter value, hence never NaN, and an
unrecognized wire type yields counter 0; with a gauge target the output is
NaN exactly when the wire type is outside
{integer, unsigned integer, 32-bit counter, gauge, 64-bit counter}. -/
theorem value_coercion_pure_and_nan (vl : SnmpVariable) :
    (∃ n, csnmp_value_list_to_value vl DS_TYPE_COUNTER = some (Value.counter n)) ∧
    (recognizedWireType vl.asnType = false →
      csnmp_value_list_to_value vl DS_TYPE_COUNTER = some (Value.counter 0)) ∧
    (csnmp_value_list_to_value vl DS_TYPE_GAUGE = some (Value.gauge none) ↔
      recognizedWireType vl.asnType = false) := by
  by_cases h1 : vl.asnType = ASN_INTEGER ∨ vl.asnType = ASN_UINTEGER ∨
      vl.asnType = ASN_COUNTER ∨ vl.asnType = ASN_GAUGE
  · have hrec : recognizedWireType vl.asnType = true := by
      unfold recognizedWireType
      rcases h1 with h | h | h | h <;> simp [h]
    simp [csnmp_value_list_to_value, h1, hrec, DS_TYPE_COUNTER, DS_TYPE_GAUGE]
  · by_cases h2 : vl.asnType = ASN_COUNTER64
    · simp [csnmp_value_list_to_value, h1, h2, recognizedWireType,
        DS_TYPE_COUNTER, DS_TYPE_GAUGE, ASN_COUNTER64, ASN_INTEGER,
        ASN_UINTEGER, ASN_COUNTER, ASN_GAUGE]
    · have hrec : recognizedWireType vl.asnType = false := by
        unfold recognizedWireType
        push_neg at h1
        simp [h1.1, h1.2.1, h1.2.2.1, h1.2.2.2, h2]
      simp [csnmp_value_list_to_value, h1, h2, hrec, DS_TYPE_COUNTER, DS_TYPE_GAUGE]

/-- Witness for C3 at a concrete unrecognized wire type
(ASN type 0x44 = ASN_OPAQUE). -/
theorem value_coercion_pure_and_nan_witness :
    csnmp_value_list_to_value ⟨[1, 3], 0x44, 7, 0, 0⟩ DS_TYPE_COUNTER =
      some (Value.counter 0) ∧
    csnmp_value_list_to_value ⟨[1, 3], 0x44, 7, 0, 0⟩ DS_TYPE_GAUGE =
      some (Value.gauge none) :=
  ⟨(value_coercion_pure_and_nan ⟨[1, 3], 0x44, 7, 0, 0⟩).2.1 (by decide),
   (value_coercion_pure_and_nan ⟨[1, 3], 0x44, 7, 0, 0⟩).2.2.mpr (by decide)⟩

/-- The value of the coercion on an `ASN_COUNTER64` variable, before
simplifying the `uint64_t` reductions. -/
theorem coerce_counter64_raw (name : Oid) (vi : Int) (h l : Nat) :
    csnmp_value_list_to_value ⟨name, ASN_COUNTER64, vi, h, l⟩ DS_TYPE_COUNTER =
      some (Value.counter ((h * 2 ^ 32 % UINT64_MOD + l) % UINT64_MOD)) ∧
    csnmp_value_list_to_value ⟨name, ASN_COUNTER64, vi, h, l⟩ DS_TYPE_GAUGE =
      some (Value.gauge (some ((h * 2 ^ 32 % UINT64_MOD + l) % UINT64_MOD))) := by
  unfold csnmp_value_list_to_value
  norm_num [ASN_COUNTER64, ASN_INTEGER, ASN_UINTEGER, ASN_COUNTER, ASN_GAUGE,
    DS_TYPE_COUNTER, DS_TYPE_GAUGE]

/-- C4: the `ASN_COUNTER64` branch reconstructs `(h <<< 32) + l` from the
two 32-bit words of the wire value: with a counter target the stored
counter is exactly `h * 2^32 + l` (no overflow occurs since both words are
below 2^32), and with a gauge target the same integer is stored as a
defined (non-NaN) gauge. -/
theorem counter64_reconstruction (h l : Nat) (hh : h < 2 ^ 32) (hl : l < 2 ^ 32)
    (name : Oid) (vi : Int) :
    csnmp_value_list_to_value ⟨name, ASN_COUNTER64, vi, h, l⟩ DS_TYPE_COUNTER =
      some (Value.counter (h * 2 ^ 32 + l)) ∧
    csnmp_value_list_to_value ⟨name, ASN_COUNTER64, vi, h, l⟩ DS_TYPE_GAUGE =
      some (Value.gauge (some (h * 2 ^ 32 + l))) := by
  have hred : (h * 2 ^ 32 % UINT64_MOD + l) % UINT64_MOD = h * 2 ^ 32 + l := by
    have e32 : (2 : Nat) ^ 32 = 4294967296 := by norm_num
    unfold UINT64_MOD
    have e64 : (2 : Nat) ^ 64 = 18446744073709551616 := by norm_num
    rw [e32] at hh hl ⊢
    rw [e64]
    have hm : h * 4294967296 < 18446744073709551616 := by omega
    rw [Nat.mod_eq_of_lt hm, Nat.mod_eq_of_lt (by omega)]
  have hraw := coerce_counter64_raw name vi h l
  rw [hred] at hraw
  exact hraw

/-- Witness for C4 at h = 0x1, l = 0x2: the reconstructed counter is
0x100000002. -/
theorem counter64_reconstruction_witness :
    csnmp_value_list_to_value ⟨[1], ASN_COUNTER64, 0, 1, 2⟩ DS_TYPE_COUNTER =
      some (Value.counter 0x100000002) := by
  have h := (counter64_reconstruction 1 2 (by decide) (by decide) [1] 0).1
  norm_num at h
  exact h

/-- C10: `csnmp_value_list_to_value` assigns `ret` only in the
`DS_TYPE_COUNTER` and `DS_TYPE_GAUGE` branches: under the precondition that
the slot kind is counter or gauge the result is always assigned (the
function is total there), while for any other slot kind the function
returns with `ret` unassigned (`none` — an indeterminate value in C). -/
theorem value_coercion_assignment (vl : SnmpVariable) (type : Int) :
    (type = DS_TYPE_COUNTER ∨ type = DS_TYPE_GAUGE →
      (csnmp_value_list_to_value vl type).isSome = true) ∧
    (type ≠ DS_TYPE_COUNTER → type ≠ DS_TYPE_GAUGE →
      csnmp_value_list_to_value vl type = none) := by
  unfold csnmp_value_list_to_value
  constructor
  · rintro (h | h) <;> simp [h, DS_TYPE_COUNTER, DS_TYPE_GAUGE]
  · intro h1 h2
    simp [h1, h2]

/-- Witness for C10 at a concrete variable, with slot kinds 0 (counter) and
7 (neither counter nor gauge). -/
theorem value_coercion_assignment_witness :
    (csnmp_value_list_to_value ⟨[1], ASN_INTEGER, 5, 0, 0⟩ DS_TYPE_COUNTER).isSome = true ∧
    csnmp_value_list_to_value ⟨[1], ASN_INTEGER, 5, 0, 0⟩ 7 = none :=
  ⟨(value_coercion_assignment ⟨[1], ASN_INTEGER, 5, 0, 0⟩ DS_TYPE_COUNTER).1 (Or.inl rfl),
   (value_coercion_assignment ⟨[1], ASN_INTEGER, 5, 0, 0⟩ 7).2 (by decide) (by decide)⟩

/-- A slot whose configured OID differs from a variable's identifier is
not touched by that variable's matching pass. -/
theorem fillVar_getElem?_ne (oids : List Oid) (ds : List Int) (vb : SnmpVariable)
    (ss : List Slot) (i : Nat) (h : oids[i]? ≠ some vb.name) :
    (fillVar oids ds vb ss)[i]? = ss[i]? := by
  induction oids generalizing ds ss i with
  | nil => rfl
  | cons o os ih =>
    cases ds with
    | nil => rfl
    | cons t ts =>
      cases ss with
      | nil => rfl
      | cons s ss' =>
        cases i with
        | zero =>
          have h' : o ≠ vb.name := fun he => h (by rw [he]; simp)
          simp [fillVar, h']
        | succ n =>
          simp only [List.getElem?_cons_succ] at h
          simp [fillVar, ih ts ss' n h]

/-- A slot whose configured OID equals a variable's identifier is
overwritten with the coerced value by that variable's matching pass. -/
theorem fillVar_getElem?_match (oids : List Oid) (ds : List Int) (vb : SnmpVariable)
    (ss : List Slot) (i : Nat) (t : Int) (ho : oids[i]? = some vb.name)
    (ht : ds[i]? = some t) (hs : i < ss.length) :
    (fillVar oids ds vb ss)[i]? = some (csnmp_value_list_to_value vb t) := by
  induction oids generalizing ds ss i with
  | nil => simp at ho
  | cons o os ih =>
    cases ds with
    | nil => simp at ht
    | cons t' ts =>
      cases ss with
      | nil => simp at hs
      | cons s ss' =>
        cases i with
        | zero =>
          simp only [List.getElem?_cons_zero, Option.some.injEq] at ho ht
          simp [fillVar, ho, ht]
        | succ n =>
          simp only [List.getElem?_cons_succ] at ho ht
          simp only [List.length_cons, Nat.succ_lt_succ_iff] at hs
          simp [fillVar, ih ts ss' n ho ht hs]

/-- A slot matched by none of the returned variables keeps its content
through the whole matching loop. -/
theorem applyVars_getElem?_ne (oids : List Oid) (ds : List Int)
    (vars : List SnmpVariable) (ss : List Slot) (i : Nat)
    (h : ∀ vb ∈ vars, oids[i]? ≠ some vb.name) :
    (applyVars oids ds vars ss)[i]? = ss[i]? := by
  induction vars generalizing ss with
  | nil => rfl
  | cons vb rest ih =>
    show (applyVars oids ds rest (fillVar oids ds vb ss))[i]? = ss[i]?
    rw [ih (fillVar oids ds vb ss) fun x hx => h x (List.mem_cons_of_mem _ hx)]
    exact fillVar_getElem?_ne oids ds vb ss i (h vb (List.mem_cons_self _ _))

/-- C5: in scalar mode every slot is initialized to its absent value
(counter 0 for a counter slot, gauge NaN for every other slot) and is only
overwritten by a returned variable whose identifier exactly equals that
slot's configured OID, via Value Coercion. Consequently: a slot matched by
no returned variable still holds its absent value after the loop (first
conjunct); a slot whose OID equals a variable's identifier holds the
coerced value after that variable's pass (second conjunct); and in the
round-trip scenario — definition `d1` with two gauge slots, OIDs 1.3.6.1.1
and 1.3.6.1.2, instance "eth0" on host `h1`, response carrying 42 for the
first OID and nothing for the second — the dispatched sample's slots are
[42.0, NaN] (third conjunct). -/
theorem scalar_init_and_exact_match :
    (∀ (oids : List Oid) (ds : List Int) (vars : List SnmpVariable) (i : Nat) (t : Int),
       ds[i]? = some t →
       (∀ vb ∈ vars, oids[i]? ≠ some vb.name) →
       (applyVars oids ds vars (initSlots ds))[i]? =
         some (if t = DS_TYPE_COUNTER then some (Value.counter 0)
               else some (Value.gauge none))) ∧
    (∀ (oids : List Oid) (ds : List Int) (vb : SnmpVariable) (ss : List Slot)
       (i : Nat) (t : Int),
       oids[i]? = some vb.name → ds[i]? = some t → i < ss.length →
       (fillVar oids ds vb ss)[i]? = some (csnmp_value_list_to_value vb t)) ∧
    csnmp_read_value envScenario hostH1 dataD1 =
      (0, [Event.dispatched
        { host := "h1", plugin := "snmp", type_instance := "eth0", type := "foo2",
          time := 100,
          values := [some (Value.gauge (some 42)), some (Value.gauge none)] }]) := by
  refine ⟨?_, fillVar_getElem?_match, by decide⟩
  intro oids ds vars i t ht hno
  rw [applyVars_getElem?_ne oids ds vars (initSlots ds) i hno]
  unfold initSlots
  rw [List.getElem?_map, ht]
  rfl

/-- Witness for C5: the absent-value conjunct at a one-slot counter
definition with an empty response, the overwrite conjunct at a concrete
match, and the closed scenario conjunct. -/
theorem scalar_init_and_exact_match_witness :
    (applyVars [[1, 3]] [DS_TYPE_COUNTER] [] (initSlots [DS_TYPE_COUNTER]))[0]? =
      some (some (Value.counter 0)) ∧
    (fillVar [[1, 3]] [DS_TYPE_GAUGE] ⟨[1, 3], ASN_INTEGER, 5, 0, 0⟩
        (initSlots [DS_TYPE_GAUGE]))[0]? =
      some (csnmp_value_list_to_value ⟨[1, 3], ASN_INTEGER, 5, 0, 0⟩ DS_TYPE_GAUGE) := by
  constructor
  · have h := scalar_init_and_exact_match.1 [[1, 3]] [DS_TYPE_COUNTER] [] 0
      DS_TYPE_COUNTER (by decide) (by intro vb hvb; simp at hvb)
    simpa using h
  · exact scalar_init_and_exact_match.2.1 [[1, 3]] [DS_TYPE_GAUGE]
      ⟨[1, 3], ASN_INTEGER, 5, 0, 0⟩ (initSlots [DS_TYPE_GAUGE]) 0 DS_TYPE_GAUGE
      (by decide) (by decide) (by decide)

/-- Matching passes for two variables with distinct identifiers commute. -/
theorem fillVar_comm (oids : List Oid) (ds : List Int) (v w : SnmpVariable)
    (hvw : v.name ≠ w.name) :
    ∀ ss, fillVar oids ds w (fillVar oids ds v ss) =
      fillVar oids ds v (fillVar oids ds w ss) := by
  induction oids generalizing ds with
  | nil => intro ss; rfl
  | cons o os ih =>
    intro ss
    cases ds with
    | nil => rfl
    | cons t ts =>
      cases ss with
      | nil => rfl
      | cons s ss' =>
        by_cases hv : o = v.name
        · subst hv
          simp [fillVar, hvw, ih ts ss']
        · by_cases hw : o = w.name
          · subst hw
            have hwv : w.name ≠ v.name := Ne.symm hvw
            simp [fillVar, hwv, ih ts ss']
          · simp [fillVar, hv, hw, ih ts ss']

/-- C6 counterexample: matching is not order-independent for every list of
returned variables. With one configured gauge OID 1.3.6 and two returned
variables both named 1.3.6 (values 1 and 2), the two orders — which are
permutations of each other — yield different final slot arrays, because
the last matching variable wins. -/
theorem matching_order_dependence_counterexample :
    ([⟨[1, 3, 6], ASN_INTEGER, 1, 0, 0⟩, ⟨[1, 3, 6], ASN_INTEGER, 2, 0, 0⟩] :
        List SnmpVariable).Perm
      [⟨[1, 3, 6], ASN_INTEGER, 2, 0, 0⟩, ⟨[1, 3, 6], ASN_INTEGER, 1, 0, 0⟩] ∧
    applyVars [[1, 3, 6]] [DS_TYPE_GAUGE]
        [⟨[1, 3, 6], ASN_INTEGER, 1, 0, 0⟩, ⟨[1, 3, 6], ASN_INTEGER, 2, 0, 0⟩]
        (initSlots [DS_TYPE_GAUGE]) ≠
      applyVars [[1, 3, 6]] [DS_TYPE_GAUGE]
        [⟨[1, 3, 6], ASN_INTEGER, 2, 0, 0⟩, ⟨[1, 3, 6], ASN_INTEGER, 1, 0, 0⟩]
        (initSlots [DS_TYPE_GAUGE]) :=
  ⟨List.Perm.swap _ _ _, by decide⟩

/-- C6 amended: matching is order-independent whenever the returned
variables carry pairwise distinct identifiers (as they do in a well-formed
GET response): any permutation of the returned-variable order produces the
same final slot array, because slots are filled by exact identifier
equality, not by position. -/
theorem matching_perm_invariant (oids : List Oid) (ds : List Int)
    (slots : List Slot) (vars₁ vars₂ : List SnmpVariable)
    (hperm : vars₁.Perm vars₂)
    (hdistinct : vars₁.Pairwise fun a b => a.name ≠ b.name) :
    applyVars oids ds vars₁ slots = applyVars oids ds vars₂ slots := by
  unfold applyVars
  refine hperm.foldl_eq' ?_ slots
  intro x hx y hy z
  rcases eq_or_ne x y with rfl | hxy
  · rfl
  · have hne : x.name ≠ y.name :=
      List.Pairwise.forall (fun _ _ h => Ne.symm h) hdistinct hx hy hxy
    exact fillVar_comm oids ds x y hne z

/-- Witness for C6 amended: two distinct-named variables in either order
fill the slots identically. -/
theorem matching_perm_invariant_witness :
    applyVars [[1, 3, 6]] [DS_TYPE_GAUGE]
        [⟨[1, 3, 6], ASN_INTEGER, 1, 0, 0⟩, ⟨[1, 3, 7], ASN_INTEGER, 2, 0, 0⟩]
        (initSlots [DS_TYPE_GAUGE]) =
      applyVars [[1, 3, 6]] [DS_TYPE_GAUGE]
        [⟨[1, 3, 7], ASN_INTEGER, 2, 0, 0⟩, ⟨[1, 3, 6], ASN_INTEGER, 1, 0, 0⟩]
        (initSlots [DS_TYPE_GAUGE]) :=
  matching_perm_invariant [[1, 3, 6]] [DS_TYPE_GAUGE] (initSlots [DS_TYPE_GAUGE])
    _ _ (List.Perm.swap _ _ _) (by decide)

/-- C1 counterexample: with zero registered hosts the read cycle does
return an error result — `csnmp_read` logs "No hosts configured." and
returns -1 (the read-callback convention is 0 = success), refuting "its
result is not an error result". -/
theorem read_no_hosts_counterexample :
    csnmp_read envTriv [] = (-1, [Event.infoNoHosts]) ∧
    (csnmp_read envTriv []).1 ≠ 0 :=
  ⟨rfl, by decide⟩

/-- C1 amended: a read cycle with zero registered hosts dispatches zero
samples and reports "no hosts", but its result is the error result -1
(not success). -/
theorem read_no_hosts (env : PollEnv) :
    csnmp_read env [] = (-1, [Event.infoNoHosts]) ∧
    samplesOf (csnmp_read env []).2 = [] :=
  ⟨rfl, rfl⟩

/-- C2 counterexample: a definition whose value count disagrees with its
metric-type's slot count IS added to the registry —
`csnmp_config_add_data` never consults the metric-type schema. Concretely,
the definition "mismatch" with one OID value is accepted into the registry
even though its type "foo" has two slots. -/
theorem schema_mismatch_added_counterexample :
    (csnmp_config cfgItemMismatch).data_head = [ddMismatch] ∧
    envTwoGauge.getDs ddMismatch.type = some [DS_TYPE_GAUGE, DS_TYPE_GAUGE] ∧
    ddMismatch.values.length ≠ ([DS_TYPE_GAUGE, DS_TYPE_GAUGE] : List Int).length := by
  refine ⟨by decide, by decide, by decide⟩

/-- C2 amended: configuration acceptance does not check the schema's slot
count; the mismatch is detected at read time instead — whenever the data
set resolved for a definition has a slot count different from the
definition's value count, `csnmp_read_value` reports an error and
dispatches nothing. -/
theorem schema_mismatch_rejected_at_read (env : PollEnv) (host : HostDefinition)
    (data : DataDefinition) (ds : List Int)
    (hds : env.getDs data.type = some ds)
    (hmis : ds.length ≠ data.values.length) :
    csnmp_read_value env host data = (-1, []) ∧
    samplesOf (csnmp_read_value env host data).2 = [] := by
  have h : csnmp_read_value env host data = (-1, []) := by
    unfold csnmp_read_value
    rw [hds]
    simp [hmis]
  exact ⟨h, by rw [h]; rfl⟩


/-- Witness for C2 amended at the concrete mismatched definition. -/
theorem schema_mismatch_rejected_at_read_witness :
    csnmp_read_value envTwoGauge hostMismatch ddMismatch = (-1, []) :=
  (schema_mismatch_rejected_at_read envTwoGauge hostMismatch ddMismatch
    [DS_TYPE_GAUGE, DS_TYPE_GAUGE] (by decide) (by decide)).1

/-- The scalar read path emits either nothing (an error path) or exactly
one dispatched sample. -/
theorem read_value_events (env : PollEnv) (host : HostDefinition)
    (data : DataDefinition) :
    (csnmp_read_value env host data).2 = [] ∨
    ∃ s, (csnmp_read_value env host data).2 = [Event.dispatched s] := by
  unfold csnmp_read_value
  cases env.getDs data.type with
  | none => exact Or.inl rfl
  | some ds =>
    dsimp only
    by_cases hlen : ds.length ≠ data.values.length
    · rw [if_pos hlen]
      exact Or.inl rfl
    · rw [if_neg hlen]
      cases env.response host data.values with
      | none => exact Or.inl rfl
      | some vars => exact Or.inr ⟨_, rfl⟩

/-- C9: a host whose session fails to open contributes zero samples (first
conjunct, with the whole cycle doing nothing but logging the failure for
that host); the cycle's trace is the concatenation of every host's trace
in registration order regardless of any host's status, so one host's
failure never prevents later hosts' samples (second conjunct); and when
the session did open, the trace is the session opening, then only
dispatched samples from the per-definition loop, then — unconditionally —
the session closing (third conjunct). -/
theorem read_host_isolation :
    (∀ env host, env.sessOpen host = false →
       csnmp_read_host env host = (-1, [Event.sessionOpenFailed host.name]) ∧
       samplesOf (csnmp_read_host env host).2 = []) ∧
    (∀ env (hosts : List HostDefinition), hosts ≠ [] →
       csnmp_read env hosts =
         (0, (hosts.map fun h => (csnmp_read_host env h).2).flatten)) ∧
    (∀ env host, env.sessOpen host = true →
       ∃ body, (csnmp_read_host env host).2 =
           Event.sessionOpened host.name :: (body ++ [Event.sessionClosed host.name]) ∧
         ∀ e ∈ body, ∃ s, e = Event.dispatched s) := by
  refine ⟨?_, ?_, ?_⟩
  · intro env host h
    have he : csnmp_read_host env host = (-1, [Event.sessionOpenFailed host.name]) := by
      unfold csnmp_read_host
      simp [h]
    exact ⟨he, by rw [he]; rfl⟩
  · intro env hosts hne
    cases hosts with
    | nil => exact absurd rfl hne
    | cons h t => rfl
  · intro env host h
    refine ⟨((host.data_list.map fun data =>
        if data.is_table then csnmp_read_table env host data
        else csnmp_read_value env host data).map Prod.snd).flatten, ?_, ?_⟩
    · unfold csnmp_read_host
      simp [h]
    · intro e he
      rw [List.mem_flatten] at he
      obtain ⟨l, hl, hel⟩ := he
      rw [List.mem_map] at hl
      obtain ⟨p, hp, rfl⟩ := hl
      rw [List.mem_map] at hp
      obtain ⟨d, hd, rfl⟩ := hp
      by_cases htab : d.is_table
      · simp [htab, csnmp_read_table] at hel
      · simp only [Bool.not_eq_true] at htab
        simp only [htab, Bool.false_eq_true, if_false] at hel
        rcases read_value_events env host d with hv | ⟨s, hv⟩
        · rw [hv] at hel
          simp at hel
        · rw [hv] at hel
          simp at hel
          exact ⟨s, hel⟩

/-- Witness for C9: concretely, host "bad" fails to open and contributes
zero samples, while the cycle over ["bad", "h1"] still concatenates both
hosts' traces. -/
theorem read_host_isolation_witness :
    (csnmp_read_host envBadHost hostBad = (-1, [Event.sessionOpenFailed "bad"]) ∧
      samplesOf (csnmp_read_host envBadHost hostBad).2 = []) ∧
    csnmp_read envBadHost [hostBad, hostH1] =
      (0, (([hostBad, hostH1].map fun h => (csnmp_read_host envBadHost h).2)).flatten) :=
  ⟨read_host_isolation.1 envBadHost hostBad (by decide),
   read_host_isolation.2.1 envBadHost [hostBad, hostH1] (by simp)⟩

/-- Lookup lemma: `collectAppend` finds no host when no registered host's name matches. -/
theorem collectAppend_not_found (n : String) (adds : List DataDefinition) :
    ∀ hs : List HostDefinition, (∀ h ∈ hs, strCaseEq n h.name = false) →
      collectAppend n adds hs = none := by
  intro hs
  induction hs with
  | nil => intro _; rfl
  | cons h t ih =>
    intro hall
    have hh := hall h (List.mem_cons_self _ _)
    simp [collectAppend, hh, ih fun x hx => hall x (List.mem_cons_of_mem _ hx)]

/-- Lookup lemma: `collectAppend` updates exactly the first matching host. -/
theorem collectAppend_found (n : String) (adds : List DataDefinition) :
    ∀ (pre : List HostDefinition) (host : HostDefinition) (post : List HostDefinition),
      (∀ h ∈ pre, strCaseEq n h.name = false) → strCaseEq n host.name = true →
      collectAppend n adds (pre ++ host :: post) =
        some (pre ++ { host with data_list := host.data_list ++ adds } :: post) := by
  intro pre
  induction pre with
  | nil =>
    intro host post _ hm
    simp [collectAppend, hm]
  | cons h t ih =>
    intro host post hall hm
    have hh := hall h (List.mem_cons_self _ _)
    simp [collectAppend, hh,
      ih host post (fun x hx => hall x (List.mem_cons_of_mem _ hx)) hm]

/-- Evaluation of `csnmp_config_add_collect` on a well-formed declaration
(first value a string host name, at least one further value, all values
strings): the argument checks pass and the result is decided by the host
lookup. -/
theorem add_collect_eval (hosts : List HostDefinition)
    (dataList : List DataDefinition) (h0 : String) (vs : List OValue)
    (children : List OItem) (hvs : vs ≠ [])
    (hstr : ∀ v ∈ vs, (strVal? v).isSome = true) :
    csnmp_config_add_collect hosts dataList
        (OItem.mk "Collect" (OValue.str h0 :: vs) children) =
      match collectAppend h0
          ((vs.filterMap strVal?).filterMap (findDataDef dataList)) hosts with
      | some hosts' => (0, hosts')
      | none => (-1, hosts) := by
  have hlen : ¬((OValue.str h0 :: vs).length < 2) := by
    have : vs.length ≠ 0 := fun h => hvs (List.length_eq_zero.mp h)
    simp only [List.length_cons]
    omega
  have hany : ((OValue.str h0 :: vs).any fun v => (strVal? v).isNone) = false := by
    rw [List.any_eq_false]
    intro v hv
    rcases List.mem_cons.mp hv with rfl | hv'
    · simp [strVal?]
    · obtain ⟨s, hs⟩ := Option.isSome_iff_exists.mp (hstr v hv')
      simp [hs]
  have hfm : (OValue.str h0 :: vs).filterMap strVal? = h0 :: vs.filterMap strVal? := by
    simp [List.filterMap_cons, strVal?]
  unfold csnmp_config_add_collect
  simp only [OItem.values, hany, Bool.false_eq_true, if_false, if_neg hlen, hfm]
  rfl

/-- C7: for every `Collect` declaration (host name plus at least one data
name, all strings), if the named host is not registered the whole
declaration is rejected and the host registry is unchanged (first
conjunct); if the host resolves (case-insensitively, first match), each
data-definition name is resolved independently and case-insensitively —
unresolved names are skipped while resolved ones are appended to exactly
that host's collect set in the order given, every other host unchanged
(second conjunct). -/
theorem collect_binding :
    (∀ (hosts : List HostDefinition) (dataList : List DataDefinition)
       (h0 : String) (vs : List OValue) (children : List OItem),
       vs ≠ [] → (∀ v ∈ vs, (strVal? v).isSome = true) →
       (∀ h ∈ hosts, strCaseEq h0 h.name = false) →
       csnmp_config_add_collect hosts dataList
         (OItem.mk "Collect" (OValue.str h0 :: vs) children) = (-1, hosts)) ∧
    (∀ (dataList : List DataDefinition) (h0 : String) (vs : List OValue)
       (children : List OItem) (pre : List HostDefinition)
       (host : HostDefinition) (post : List HostDefinition),
       vs ≠ [] → (∀ v ∈ vs, (strVal? v).isSome = true) →
       (∀ h ∈ pre, strCaseEq h0 h.name = false) →
       strCaseEq h0 host.name = true →
       csnmp_config_add_collect (pre ++ host :: post) dataList
         (OItem.mk "Collect" (OValue.str h0 :: vs) children) =
         (0, pre ++ { host with data_list := host.data_list ++
             (vs.filterMap strVal?).filterMap (findDataDef dataList) } :: post)) := by
  constructor
  · intro hosts dataList h0 vs children hvs hstr hnone
    rw [add_collect_eval hosts dataList h0 vs children hvs hstr,
      collectAppend_not_found h0 _ hosts hnone]
  · intro dataList h0 vs children pre host post hvs hstr hpre hm
    rw [add_collect_eval _ dataList h0 vs children hvs hstr,
      collectAppend_found h0 _ pre host post hpre hm]

/-- Witness for C7: the unknown host "gamma" rejects the declaration
leaving both hosts untouched; the known host "BETA" (matching "beta"
case-insensitively) gets "dx" appended while "missing" is skipped, and
"alpha" is untouched. -/
theorem collect_binding_witness :
    csnmp_config_add_collect [hostAlpha, hostBeta] [dataDx]
        (OItem.mk "Collect" [OValue.str "gamma", OValue.str "dx"] []) =
      (-1, [hostAlpha, hostBeta]) ∧
    csnmp_config_add_collect [hostAlpha, hostBeta] [dataDx]
        (OItem.mk "Collect"
          [OValue.str "BETA", OValue.str "dx", OValue.str "missing"] []) =
      (0, [hostAlpha, { hostBeta with data_list := [dataDx] }]) := by
  constructor
  · exact collect_binding.1 [hostAlpha, hostBeta] [dataDx] "gamma"
      [OValue.str "dx"] [] (by decide) (by decide) (by decide)
  · have h := collect_binding.2 [dataDx] "BETA"
      [OValue.str "dx", OValue.str "missing"] [] [hostAlpha] hostBeta []
      (by decide) (by decide) (by decide) (by decide)
    exact h.trans (by decide)

/-- Options with key `Type` do not touch the values field. -/
theorem add_data_type_preserves (dd : DataBuild) (c : OItem) :
    ((csnmp_config_add_data_type dd c).2).values = dd.values := by
  unfold csnmp_config_add_data_type
  cases hv : c.values with
  | nil => rfl
  | cons v rest => cases v <;> cases rest <;> rfl

/-- Options with key `Table` touch neither the type field nor the values field. -/
theorem add_data_table_preserves (dd : DataBuild) (c : OItem) :
    ((csnmp_config_add_data_table dd c).2).type = dd.type ∧
    ((csnmp_config_add_data_table dd c).2).values = dd.values := by
  unfold csnmp_config_add_data_table
  cases hv : c.values with
  | nil => exact ⟨rfl, rfl⟩
  | cons v rest => cases v <;> cases rest <;> exact ⟨rfl, rfl⟩

/-- Options with key `Instance` touch neither the type field nor the values
field. -/
theorem add_data_instance_preserves (dd : DataBuild) (c : OItem) :
    ((csnmp_config_add_data_instance dd c).2).type = dd.type ∧
    ((csnmp_config_add_data_instance dd c).2).values = dd.values := by
  unfold csnmp_config_add_data_instance
  cases hv : c.values with
  | nil => exact ⟨rfl, rfl⟩
  | cons v rest =>
    cases v with
    | str s =>
      cases rest with
      | nil =>
        dsimp only
        by_cases ht : dd.is_table = true
        · rw [if_pos ht]
          cases parseOid s <;> exact ⟨rfl, rfl⟩
        · rw [if_neg ht]
          exact ⟨rfl, rfl⟩
      | cons w r => exact ⟨rfl, rfl⟩
    | num n => exact ⟨rfl, rfl⟩
    | bool b => exact ⟨rfl, rfl⟩

/-- Options with key `Values` do not touch the type field. -/
theorem add_data_values_preserves (dd : DataBuild) (c : OItem) :
    ((csnmp_config_add_data_values dd c).2).type = dd.type := by
  unfold csnmp_config_add_data_values
  by_cases h1 : c.values.length < 1
  · simp [h1]
  · simp only [h1, if_false]
    by_cases h2 : c.values.any fun v => (strVal? v).isNone
    · simp [h2]
    · simp only [h2, Bool.false_eq_true, if_false]
      cases parseOidList (c.values.filterMap strVal?) <;> rfl

/-- An option whose key is not `Type` leaves the type field alone. -/
theorem add_data_option_type (dd : DataBuild) (c : OItem)
    (h : strCaseEq "Type" c.key = false) :
    ((csnmp_config_add_data_option dd c).2).type = dd.type := by
  unfold csnmp_config_add_data_option
  simp only [h, Bool.false_eq_true, if_false]
  split_ifs with h1 h2 h3
  · exact (add_data_table_preserves dd c).1
  · exact (add_data_instance_preserves dd c).1
  · exact add_data_values_preserves dd c
  · rfl

/-- An option whose key is not `Values` leaves the values field alone. -/
theorem add_data_option_values (dd : DataBuild) (c : OItem)
    (h : strCaseEq "Values" c.key = false) :
    ((csnmp_config_add_data_option dd c).2).values = dd.values := by
  unfold csnmp_config_add_data_option
  split_ifs with h1 h2 h3 h4
  · exact add_data_type_preserves dd c
  · exact (add_data_table_preserves dd c).2
  · exact (add_data_instance_preserves dd c).2
  · rw [h] at h4
    exact absurd h4 (by simp)
  · rfl

/-- Without a `Type` child the child loop leaves the type field alone. -/
theorem add_data_children_type (items : List OItem) :
    ∀ dd : DataBuild, (∀ c ∈ items, strCaseEq "Type" c.key = false) →
      ((csnmp_config_add_data_children dd items).2).type = dd.type := by
  induction items with
  | nil => intro dd _; rfl
  | cons c rest ih =>
    intro dd h
    have hc := h c (List.mem_cons_self _ _)
    unfold csnmp_config_add_data_children
    split
    · exact add_data_option_type dd c hc
    · rw [ih _ fun x hx => h x (List.mem_cons_of_mem _ hx)]
      exact add_data_option_type dd c hc

/-- Without a `Values` child the child loop leaves the values field
alone. -/
theorem add_data_children_values (items : List OItem) :
    ∀ dd : DataBuild, (∀ c ∈ items, strCaseEq "Values" c.key = false) →
      ((csnmp_config_add_data_children dd items).2).values = dd.values := by
  induction items with
  | nil => intro dd _; rfl
  | cons c rest ih =>
    intro dd h
    have hc := h c (List.mem_cons_self _ _)
    unfold csnmp_config_add_data_children
    split
    · exact add_data_option_values dd c hc
    · rw [ih _ fun x hx => h x (List.mem_cons_of_mem _ hx)]
      exact add_data_option_values dd c hc

/-- One `csnmp_config` step appends at most the accepted data definition
to the data registry. -/
theorem config_step_data_head (st : ConfigState) (c : OItem) :
    (csnmp_config_step st c).data_head =
      st.data_head ++
        (if strCaseEq "Data" c.key then csnmp_config_add_data c else none).toList := by
  unfold csnmp_config_step
  split_ifs with h1 h2 h3
  · cases hD : csnmp_config_add_data c <;> simp [hD]
  · cases hH : csnmp_config_add_host c <;> simp [hH]
  · simp
  · simp

/-- The data registry after folding `csnmp_config_step` over declarations
is the initial registry followed by the accepted `Data` declarations. -/
theorem config_foldl_data_head (items : List OItem) :
    ∀ st : ConfigState,
      (items.foldl csnmp_config_step st).data_head =
        st.data_head ++ items.filterMap fun c =>
          if strCaseEq "Data" c.key then csnmp_config_add_data c else none := by
  induction items with
  | nil => intro st; simp
  | cons c rest ih =>
    intro st
    rw [List.foldl_cons, ih, config_step_data_head, List.filterMap_cons]
    cases hif : (if strCaseEq "Data" c.key then csnmp_config_add_data c else none) with
    | none => simp
    | some dd => simp

/-- C8: a `Data` declaration with no `Type` child or no `Values` child is
rejected — `csnmp_config_add_data` returns nothing, so nothing enters the
registry (first conjunct) — and the sibling loop of `csnmp_config` is
unaffected by rejections: the data registry after processing equals
exactly the accepted (well-formed) `Data` declarations, in order (second
conjunct). -/
theorem data_rejection_and_registry :
    (∀ ci : OItem,
       ((∀ c ∈ ci.children, strCaseEq "Type" c.key = false) ∨
        (∀ c ∈ ci.children, strCaseEq "Values" c.key = false)) →
       csnmp_config_add_data ci = none) ∧
    (∀ top : OItem,
       (csnmp_config top).data_head =
         top.children.filterMap fun c =>
           if strCaseEq "Data" c.key then csnmp_config_add_data c else none) := by
  constructor
  · intro ci hmiss
    unfold csnmp_config_add_data
    cases hv : ci.values with
    | nil => rfl
    | cons v rest =>
      cases v with
      | str s =>
        cases rest with
        | nil =>
          dsimp only
          split
          · rfl
          · rcases hmiss with hT | hV
            · rw [add_data_children_type ci.children _ hT]
            · rw [add_data_children_values ci.children _ hV]
              cases ((csnmp_config_add_data_children
                  { name := s, type := none, is_table := false,
                    instSpec := InstanceSpec.str "", values := none }
                  ci.children).2).type <;> rfl
        | cons w r => rfl
      | num n => rfl
      | bool b => rfl
  · intro top
    unfold csnmp_config
    rw [config_foldl_data_head]
    rfl

/-- Witness for C8: the declaration "broken" (no `Values` child) is
rejected, and a configuration holding it next to the well-formed sibling
"good" ends with exactly the sibling's definition in the registry. -/
theorem data_rejection_and_registry_witness :
    csnmp_config_add_data declNoValues = none ∧
    (csnmp_config cfgSiblings).data_head = [ddGood] := by
  constructor
  · exact data_rejection_and_registry.1 declNoValues (Or.inr (by decide))
  · exact (data_rejection_and_registry.2 cfgSiblings).trans (by decide)

end CollectdSnmp
